import Mathlib

/-!
A shallow embedding of `core/http/src/tls/listener.rs`: the non-blocking TLS
acceptance layer (accept / deferred handshake state machine / certificate cell /
certificate resolver with hot reload).

Modelling conventions:
* byte buffers, addresses and handles are `Nat` / `List Nat`;
* `io::Error` is a pair of a kind code and a message (`IOErr`);
* fallible Rust calls are `Except IOErr _`; a Rust `panic` (from `.unwrap()`)
  is the `Outcome.panicked` constructor, distinct from a returned `Err`;
* external collaborators out of scope for the core (`load_certs`,
  `load_private_key`, `load_ca_certs`, `rustls::sign::any_supported_type`, the
  TLS engine builder, the ticketer, the TCP bind and the signal registration)
  are parameters: functions or `Except` values supplied to the model;
* a `tokio_rustls::Accept` handshake future is modelled as a script
  (`AcceptM`): a number of polls that return `Pending` followed by a final
  outcome; a failed handshake future never later yields `Ok`;
* `Poll` is `ready`/`pending`, and a polling function returns the new stream
  state, the poll result and the list of emitted log diagnostics.
-/

namespace TlsCore

/-- `io::Error`: an error kind code plus a message. -/
structure IOErr where
  kind : Nat
  msg : String
deriving DecidableEq, Repr

/-- `std::task::Poll`. -/
inductive Poll (α : Type) where
  | ready (a : α)
  | pending
deriving DecidableEq, Repr

/-- Outcome of a Rust computation that may return `Err` or panic via
`.unwrap()`. `err` is an error *returned* to the caller; `panicked` is a
process/task panic, never observable as a return value. -/
inductive Outcome (α : Type) where
  | ok (a : α)
  | err (e : IOErr)
  | panicked (msg : String)
deriving DecidableEq, Repr

/-- True exactly when the outcome is a *returned* `Err` (not a panic). -/
def Outcome.isErrReturn {α : Type} : Outcome α → Bool
  | .err _ => true
  | _ => false

/-- `ResolverConfig` (listener.rs lines 20-23): the active certificate chain
and private key, replaced wholesale on reload. -/
structure ResolverConfig where
  cert_chain : List (List Nat)
  private_key : List Nat
deriving DecidableEq, Repr

/-- `Config<R>` (listener.rs lines 78-88). The `R: BufRead` sources are
modelled as byte lists handed to the loader collaborators. -/
structure ConfigM where
  cert_chain : List Nat
  private_key : List Nat
  ciphersuites : List Nat
  prefer_server_order : Bool
  ca_certs : Option (List Nat)
  mandatory_mtls : Bool
deriving DecidableEq, Repr

/-- The loader collaborators from `tls/util.rs` (out of scope; used only
through their `Except` interface, per the spec's interface-boundary rule). -/
structure Loaders where
  load_certs : List Nat → Except IOErr (List (List Nat))
  load_private_key : List Nat → Except IOErr (List Nat)
  load_ca_certs : List Nat → Except IOErr (List (List Nat))

/-- `Resolver::new` (listener.rs lines 106-126). Both loader failures go
through `.map_err(.. "bad TLS cert chain"/"bad TLS private key" ..).unwrap()`:
the descriptive error is built and then *unwrapped*, so a malformed source
panics with that message rather than returning the error. -/
def Resolver.new (L : Loaders) (c : ConfigM) : Outcome ResolverConfig :=
  match L.load_certs c.cert_chain with
  | .error e => .panicked ("bad TLS cert chain: " ++ e.msg)
  | .ok cert_chain =>
    match L.load_private_key c.private_key with
    | .error e => .panicked ("bad TLS private key: " ++ e.msg)
    | .ok private_key => .ok ⟨cert_chain, private_key⟩

/-- The body of one iteration of the `background_updater` loop
(listener.rs lines 140-157): re-read the sources; on success build the new
`ResolverConfig` that gets stored into the resolver's slot; on failure the
`.unwrap()` panics the spawned task. -/
def Resolver.background_updater_step (L : Loaders) (c : ConfigM) :
    Outcome ResolverConfig :=
  match L.load_certs c.cert_chain with
  | .error e => .panicked ("bad TLS cert chain: " ++ e.msg)
  | .ok cert_chain =>
    match L.load_private_key c.private_key with
    | .error e => .panicked ("bad TLS private key: " ++ e.msg)
    | .ok private_key => .ok ⟨cert_chain, private_key⟩

/-- The resolver's active state after one reload trigger: replaced on a
successful re-read; on a panic the assignment at line 153 is never reached,
so the previously active state is left in the slot (and the task is dead). -/
def activeAfterReload (L : Loaders) (c : ConfigM) (active : ResolverConfig) :
    ResolverConfig :=
  match Resolver.background_updater_step L c with
  | .ok fresh => fresh
  | _ => active

/-- `rustls::sign::CertifiedKey` as built by `Resolver::resolve`: the copied
chain plus the signing-key handle produced by `any_supported_type`. -/
structure CertifiedKey where
  cert_chain : List (List Nat)
  key : Nat
deriving DecidableEq, Repr

/-- `Resolver::resolve` (listener.rs lines 91-102): lock the slot, copy the
chain (`cert_chain.to_vec()`), build the signing key via
`any_supported_type(private_key).unwrap()` — a `None`/`Err` there panics —
and return `Some`. The `None` return branch of the trait is never taken.
`any_supported_type` is the external collaborator deciding key support. -/
def Resolver.resolve (any_supported_type : List Nat → Option Nat)
    (active : ResolverConfig) : Outcome (Option CertifiedKey) :=
  match any_supported_type active.private_key with
  | none => .panicked "any_supported_type failed: unwrap on Err"
  | some sign_key => .ok (some ⟨active.cert_chain, sign_key⟩)

/-- The client-auth policy value attached to the TLS engine config. -/
inductive ClientAuth where
  | noClientAuth
  | allowAnyAuthenticatedClient (ca : List (List Nat))
  | allowAnyAnonymousOrAuthenticatedClient (ca : List (List Nat))
deriving DecidableEq, Repr

/-- The client-auth match of `TlsListener::bind` (listener.rs lines 172-179):
no CA source → no client auth; CA parses and `mandatory_mtls` →
require-and-verify; CA parses, not mandatory → authenticated-or-anonymous;
CA fails to parse → returned `io::Error` wrapping the cause. -/
def client_auth_policy (L : Loaders) (c : ConfigM) : Except IOErr ClientAuth :=
  match c.ca_certs with
  | some ca_src =>
    match L.load_ca_certs ca_src with
    | .ok ca =>
      if c.mandatory_mtls then .ok (.allowAnyAuthenticatedClient ca)
      else .ok (.allowAnyAnonymousOrAuthenticatedClient ca)
    | .error e => .error ⟨e.kind, "bad CA cert(s): " ++ e.msg⟩
  | none => .ok .noClientAuth

/-- `io::ErrorKind::Other`, the kind used by the wrap-and-return points of
`bind` that do not preserve an underlying kind. -/
def ioErrorKindOther : Nat := 0

/-- The `rustls::ServerConfig` assembled by `bind`, restricted to the fields
the spec talks about. -/
structure TlsEngineConfig where
  ciphersuites : List Nat
  clientAuth : ClientAuth
  resolverState : ResolverConfig
  ignore_client_order : Bool
  alpn_protocols : List String
  session_cache_capacity : Nat
  ticketer : Nat
deriving DecidableEq, Repr

/-- The external collaborators `TlsListener::bind` calls, in source order:
signal registration for the updater, the engine builder step
(`with_cipher_suites .. with_safe_default_protocol_versions`), the ticketer
constructor, and the raw `TcpListener::bind`. `http2` is the `cfg!(feature)`
flag. -/
structure BindEnv where
  loaders : Loaders
  http2 : Bool
  signal_register : Except IOErr Unit
  builder_check : List Nat → Except IOErr Unit
  new_ticketer : Except IOErr Nat
  tcp_bind : Except IOErr Unit

/-- `TlsListener::bind` (listener.rs lines 165-221), step by step in source
order: client-auth policy (may return `Err`), `Resolver::new` (may panic),
`background_updater` registration (its `Err` is wrapped and returned),
builder (`"bad TLS config"`), ALPN, session cache of 1024 entries, ticketer
(`"bad TLS ticketer"`), then the raw TCP bind (its error returned as-is). -/
def TlsListener.bind (env : BindEnv) (c : ConfigM) : Outcome TlsEngineConfig :=
  match client_auth_policy env.loaders c with
  | .error e => .err e
  | .ok clientAuth =>
    match Resolver.new env.loaders c with
    | .panicked m => .panicked m
    | .err e => .err e
    | .ok resolverState =>
      match env.signal_register with
      | .error e =>
        .err ⟨ioErrorKindOther, "failed to spawn background updater: " ++ e.msg⟩
      | .ok _ =>
        match env.builder_check c.ciphersuites with
        | .error e => .err ⟨ioErrorKindOther, "bad TLS config: " ++ e.msg⟩
        | .ok _ =>
          match env.new_ticketer with
          | .error e => .err ⟨ioErrorKindOther, "bad TLS ticketer: " ++ e.msg⟩
          | .ok tick =>
            match env.tcp_bind with
            | .error e => .err e
            | .ok _ =>
              .ok { ciphersuites := c.ciphersuites
                    clientAuth := clientAuth
                    resolverState := resolverState
                    ignore_client_order := c.prefer_server_order
                    alpn_protocols :=
                      if env.http2 then ["h2", "http/1.1"] else ["http/1.1"]
                    session_cache_capacity := 1024
                    ticketer := tick }

instance {ε α : Type} [DecidableEq ε] [DecidableEq α] :
    DecidableEq (Except ε α) := fun x y =>
  match x, y with
  | .ok a, .ok b =>
    if h : a = b then .isTrue (by rw [h]) else .isFalse (by simp [h])
  | .error a, .error b =>
    if h : a = b then .isTrue (by rw [h]) else .isFalse (by simp [h])
  | .ok _, .error _ => .isFalse (by simp)
  | .error _, .ok _ => .isFalse (by simp)

/-- The completed `tokio_rustls::server::TlsStream<TcpStream>`: the wrapped
raw socket handle, the session's peer-certificate output
(`get_ref().1.peer_certificates()`, `None` when the peer presented no
certificate), and the plaintext the session would deliver on a read. -/
structure StreamM where
  raw : Nat
  peer_certificates : Option (List (List Nat))
  readData : List Nat
deriving DecidableEq, Repr

/-- A `tokio_rustls::Accept<TcpStream>` handshake future, as a script: it
owns the raw socket, answers `Pending` to the next `pendingPolls` polls, then
completes with `outcome`. A future whose `outcome` is an error never later
yields a stream. -/
structure AcceptM where
  raw : Nat
  pendingPolls : Nat
  outcome : Except IOErr StreamM
deriving DecidableEq, Repr

/-- `TlsState` (listener.rs lines 70-75). -/
inductive TlsStateM where
  | handshaking (a : AcceptM)
  | streaming (s : StreamM)
deriving DecidableEq, Repr

/-- `TlsStream` (listener.rs lines 63-67). `certs` is the shared write-once
`Certificates` cell: `none` is the empty cell. -/
structure TlsStreamM where
  remote : Nat
  state : TlsStateM
  certs : Option (List (List Nat))
deriving DecidableEq, Repr

/-- `InitCell::set`: fills an empty cell; a second `set` leaves the first
value in place (the cell is single-assignment). -/
def cellSet (cell : Option (List (List Nat))) (v : List (List Nat)) :
    Option (List (List Nat)) :=
  match cell with
  | some old => some old
  | none => some v

/-- A `log::warn!` diagnostic: peer address and failure cause
(listener.rs line 292). -/
structure LogEntry where
  peer : Nat
  cause : String
deriving DecidableEq, Repr

/-- `TlsStream::poll_accept_then` (listener.rs lines 272-300), one external
call: while `Handshaking`, poll the accept future; `Pending` propagates out
(`futures::ready!`); on handshake success copy the session's non-`None`
peer-certificate output into the cell, transition to `Streaming`, and loop —
so the requested operation `f` runs against the stream within the same call;
on handshake failure log peer and cause and return the error with the state
untouched. While `Streaming`, delegate to `f` directly.
Returns (new stream state, poll result, emitted diagnostics). -/
def TlsStreamM.poll_accept_then {T : Type}
    (s : TlsStreamM) (f : StreamM → Poll (Except IOErr T)) :
    TlsStreamM × Poll (Except IOErr T) × List LogEntry :=
  match s.state with
  | .handshaking a =>
    match a.pendingPolls with
    | n + 1 =>
      ({ s with state := .handshaking ⟨a.raw, n, a.outcome⟩ },
       Poll.pending, [])
    | 0 =>
      match a.outcome with
      | .ok stream =>
        let certs' :=
          match stream.peer_certificates with
          | some cert_chain => cellSet s.certs cert_chain
          | none => s.certs
        ({ s with state := .streaming stream, certs := certs' },
         f stream, [])
      | .error e =>
        (s, Poll.ready (.error e), [⟨s.remote, e.msg⟩])
  | .streaming stream => (s, f stream, [])

/-- `poll_read` for `TlsStream` (listener.rs lines 303-311): drive the
handshake if needed, then read from the encrypted stream. -/
def TlsStreamM.poll_read (s : TlsStreamM) :
    TlsStreamM × Poll (Except IOErr (List Nat)) × List LogEntry :=
  s.poll_accept_then (fun stream => Poll.ready (.ok stream.readData))

/-- `poll_write` for `TlsStream` (listener.rs lines 314-320): drive the
handshake if needed, then write `buf` to the encrypted stream, returning the
number of bytes written. -/
def TlsStreamM.poll_write (s : TlsStreamM) (buf : List Nat) :
    TlsStreamM × Poll (Except IOErr Nat) × List LogEntry :=
  s.poll_accept_then (fun _ => Poll.ready (.ok buf.length))

/-- The effect of one handshake-driving call (`poll_read`/`poll_write`) on
the `TlsStream` record alone: the first component of `poll_accept_then`,
which does not depend on the requested operation `f`. -/
def TlsStreamM.advance (s : TlsStreamM) : TlsStreamM :=
  match s.state with
  | .handshaking a =>
    match a.pendingPolls with
    | n + 1 => { s with state := .handshaking ⟨a.raw, n, a.outcome⟩ }
    | 0 =>
      match a.outcome with
      | .ok stream =>
        let certs' :=
          match stream.peer_certificates with
          | some cert_chain => cellSet s.certs cert_chain
          | none => s.certs
        { s with state := .streaming stream, certs := certs' }
      | .error _ => s
  | .streaming _ => s

/-- The four operations a caller can issue on a `TlsStream`. -/
inductive OpKind where
  | read
  | write
  | flush
  | shutdown
deriving DecidableEq, Repr

/-- One external call on the stream. `poll_read`/`poll_write` drive the
handshake (listener.rs lines 309, 319); `poll_flush`/`poll_shutdown`
(lines 322-340) dispatch on the state but never advance the handshake and
never touch `state`, `certs` or `remote`. -/
def TlsStreamM.stepOp (s : TlsStreamM) : OpKind → TlsStreamM
  | .read => s.advance
  | .write => s.advance
  | .flush => s
  | .shutdown => s

/-- A sequence of external calls on the stream. -/
def TlsStreamM.runOps (s : TlsStreamM) (ops : List OpKind) : TlsStreamM :=
  ops.foldl TlsStreamM.stepOp s

/-- The creation-time cell invariant: while the handshake has not completed,
the certificate cell is empty. -/
def TlsStreamM.handshakingCellEmpty (s : TlsStreamM) : Bool :=
  match s.state with
  | .handshaking _ => s.certs = none
  | .streaming _ => true

/-- `TlsListener::poll_accept` (listener.rs lines 231-244): `futures::ready!`
on the raw TCP accept; on a raw connection, immediately `Ready` with a
`TlsStream` in the `Handshaking` state holding the untouched accept future
`acceptor.accept io` and an empty (`Certificates::default()`) cell. The
handshake future is never polled here. -/
def TlsListener.poll_accept (acceptor : Nat → AcceptM)
    (tcpPoll : Poll (Except IOErr (Nat × Nat))) :
    Poll (Except IOErr TlsStreamM) :=
  match tcpPoll with
  | .pending => .pending
  | .ready (.error e) => .ready (.error e)
  | .ready (.ok (io, addr)) =>
    .ready (.ok ⟨addr, .handshaking (acceptor io), none⟩)

/-- A listener plus the connections it has handed off, for isolation
statements: per the spec the listener does not track connections, so a
connection-level failure has no channel back to it. Connections are indexed
by `Nat`. -/
structure SystemM where
  listener_local_addr : Option Nat
  conns : Nat → TlsStreamM

/-- Poll a read on connection `i` of the system: only that connection's
record is replaced; the listener and every other connection are untouched. -/
def SystemM.pollReadConn (sys : SystemM) (i : Nat) :
    SystemM × Poll (Except IOErr (List Nat)) × List LogEntry :=
  let r := (sys.conns i).poll_read
  ({ sys with conns := fun j => if j = i then r.1 else sys.conns j },
   r.2.1, r.2.2)

/-- Poll a write of `buf` on connection `i` of the system: only that
connection's record is replaced; the listener and every other connection
are untouched. -/
def SystemM.pollWriteConn (sys : SystemM) (i : Nat) (buf : List Nat) :
    SystemM × Poll (Except IOErr Nat) × List LogEntry :=
  let r := (sys.conns i).poll_write buf
  ({ sys with conns := fun j => if j = i then r.1 else sys.conns j },
   r.2.1, r.2.2)

/-! Concrete fixtures used to evaluate the model on closed inputs. -/

/-- Loaders for which the private-key source is malformed. -/
def badKeyLoaders : Loaders where
  load_certs := fun _ => .ok [[1, 2]]
  load_private_key := fun _ => .error ⟨3, "no key found"⟩
  load_ca_certs := fun _ => .ok []

/-- Loaders for which the cert-chain source is malformed. -/
def badCertLoaders : Loaders where
  load_certs := fun _ => .error ⟨2, "malformed chain"⟩
  load_private_key := fun _ => .ok [7]
  load_ca_certs := fun _ => .ok []

/-- A concrete `Config` with no CA source. -/
def cfg0 : ConfigM := ⟨[10], [11], [1], false, none, false⟩

/-- A concrete previously active resolver state. -/
def prevState : ResolverConfig := ⟨[[9]], [8]⟩

/-- A concrete bind environment whose cert-chain source is malformed and
whose other collaborators all succeed. -/
def env0 : BindEnv :=
  ⟨badCertLoaders, false, .ok (), fun _ => .ok (), .ok 5, .ok ()⟩

/-- A concrete `any_supported_type` that supports exactly the key `[8]`. -/
def any0 : List Nat → Option Nat :=
  fun k => if k = [8] then some 42 else none

/-- A completed session whose peer presented the chain `[[5]]`. -/
def stream0 : StreamM := ⟨1, some [[5]], [9]⟩

/-- A handshake future that completes successfully at the next poll. -/
def a0 : AcceptM := ⟨1, 0, .ok stream0⟩

/-- A handshake future that fails at the next poll. -/
def aFail : AcceptM := ⟨1, 0, .error ⟨4, "handshake broke"⟩⟩

/-- A freshly accepted connection holding `a0`, with an empty cell. -/
def s0 : TlsStreamM := ⟨7, .handshaking a0, none⟩

/-- A freshly accepted connection holding `aFail`, with an empty cell. -/
def sFail : TlsStreamM := ⟨7, .handshaking aFail, none⟩

/-- A connection already in the `Streaming` state with a filled cell. -/
def sStream : TlsStreamM := ⟨7, .streaming stream0, some [[5]]⟩

/-- A concrete operation sequence. -/
def ops0 : List OpKind := [.read, .flush, .write, .shutdown, .read]

/-- A system whose connection 0 is `sFail` and all others are `s0`. -/
def sys0 : SystemM := ⟨some 33, fun j => if j = 0 then sFail else s0⟩

/-- Loaders for which the CA-certificate source is malformed. -/
def badCaLoaders : Loaders where
  load_certs := fun _ => .ok [[1, 2]]
  load_private_key := fun _ => .ok [7]
  load_ca_certs := fun _ => .error ⟨6, "not a cert"⟩

/-- A concrete `Config` demanding mandatory mTLS against a CA source. -/
def cfgCA : ConfigM := ⟨[10], [11], [1], false, some [12], true⟩

/-- A concrete bind environment whose CA source is malformed. -/
def envCA : BindEnv :=
  ⟨badCaLoaders, false, .ok (), fun _ => .ok (), .ok 5, .ok ()⟩

/-! Helper lemmas about the stream state machine. -/

/-- The stream-record effect of `poll_accept_then` is `advance`, whatever the
requested operation `f` is: read and write drive the same handshake. -/
theorem poll_accept_then_fst {T : Type} (s : TlsStreamM)
    (f : StreamM → Poll (Except IOErr T)) :
    (s.poll_accept_then f).1 = s.advance := by
  rcases s with ⟨r, st, c⟩
  cases st with
  | streaming stream => rfl
  | handshaking a =>
    rcases a with ⟨raw, n, oc⟩
    cases n with
    | succ m => rfl
    | zero =>
      cases oc with
      | ok stream => rfl
      | error e => rfl

theorem advance_remote (s : TlsStreamM) : s.advance.remote = s.remote := by
  rcases s with ⟨r, st, c⟩
  cases st with
  | streaming stream => rfl
  | handshaking a =>
    rcases a with ⟨raw, n, oc⟩
    cases n with
    | succ m => rfl
    | zero => cases oc with
      | ok stream => rfl
      | error e => rfl

theorem advance_of_streaming (s : TlsStreamM) (stream : StreamM)
    (h : s.state = .streaming stream) : s.advance = s := by
  rcases s with ⟨r, st, c⟩
  cases h
  rfl

theorem advance_handshaking_src (s : TlsStreamM) (a' : AcceptM)
    (h : s.advance.state = .handshaking a') :
    ∃ a, s.state = .handshaking a ∧ a'.raw = a.raw ∧ a'.outcome = a.outcome := by
  rcases s with ⟨r, st, c⟩
  cases st with
  | streaming stream => exact ⟨a', h, rfl, rfl⟩
  | handshaking a =>
    refine ⟨a, rfl, ?_⟩
    rcases a with ⟨raw, n, oc⟩
    cases n with
    | succ m =>
      simp only [TlsStreamM.advance] at h
      cases h
      exact ⟨rfl, rfl⟩
    | zero =>
      cases oc with
      | ok stream => simp [TlsStreamM.advance] at h
      | error e =>
        simp only [TlsStreamM.advance] at h
        cases h
        exact ⟨rfl, rfl⟩

theorem advance_certs_mono (s : TlsStreamM) (c : List (List Nat))
    (h : s.certs = some c) : s.advance.certs = some c := by
  rcases s with ⟨r, st, cc⟩
  cases h
  cases st with
  | streaming stream => rfl
  | handshaking a =>
    rcases a with ⟨raw, n, oc⟩
    cases n with
    | succ m => rfl
    | zero =>
      cases oc with
      | error e => rfl
      | ok stream =>
        cases hpc : stream.peer_certificates with
        | none => simp [TlsStreamM.advance, hpc]
        | some v => simp [TlsStreamM.advance, hpc, cellSet]

theorem advance_cellEmpty (s : TlsStreamM)
    (h : s.handshakingCellEmpty = true) :
    s.advance.handshakingCellEmpty = true := by
  rcases s with ⟨r, st, cc⟩
  cases st with
  | streaming stream => exact h
  | handshaking a =>
    have hcc : cc = none := by
      simpa [TlsStreamM.handshakingCellEmpty, decide_eq_true_eq] using h
    cases hcc
    rcases a with ⟨raw, n, oc⟩
    cases n with
    | succ m => simp [TlsStreamM.advance, TlsStreamM.handshakingCellEmpty]
    | zero =>
      cases oc with
      | error e => exact h
      | ok stream =>
        cases hpc : stream.peer_certificates with
        | none => simp [TlsStreamM.advance, hpc, TlsStreamM.handshakingCellEmpty]
        | some v => simp [TlsStreamM.advance, hpc, TlsStreamM.handshakingCellEmpty]

theorem advance_failed (s : TlsStreamM) (a : AcceptM) (e : IOErr)
    (h1 : s.state = .handshaking a) (h2 : a.outcome = .error e) :
    (∃ a', s.advance.state = .handshaking a' ∧ a'.outcome = .error e)
      ∧ s.advance.certs = s.certs := by
  rcases s with ⟨r, st, cc⟩
  cases h1
  rcases a with ⟨raw, n, oc⟩
  cases h2
  cases n with
  | succ m => exact ⟨⟨⟨raw, m, .error e⟩, rfl, rfl⟩, rfl⟩
  | zero => exact ⟨⟨⟨raw, 0, .error e⟩, rfl, rfl⟩, rfl⟩

theorem stepOp_remote (s : TlsStreamM) (o : OpKind) :
    (s.stepOp o).remote = s.remote := by
  cases o with
  | read => exact advance_remote s
  | write => exact advance_remote s
  | flush => rfl
  | shutdown => rfl

theorem stepOp_of_streaming (s : TlsStreamM) (stream : StreamM) (o : OpKind)
    (h : s.state = .streaming stream) : s.stepOp o = s := by
  cases o with
  | read => exact advance_of_streaming s stream h
  | write => exact advance_of_streaming s stream h
  | flush => rfl
  | shutdown => rfl

theorem stepOp_handshaking_src (s : TlsStreamM) (o : OpKind) (a' : AcceptM)
    (h : (s.stepOp o).state = .handshaking a') :
    ∃ a, s.state = .handshaking a ∧ a'.raw = a.raw ∧ a'.outcome = a.outcome := by
  cases o with
  | read => exact advance_handshaking_src s a' h
  | write => exact advance_handshaking_src s a' h
  | flush => exact ⟨a', h, rfl, rfl⟩
  | shutdown => exact ⟨a', h, rfl, rfl⟩

theorem stepOp_certs_mono (s : TlsStreamM) (o : OpKind) (c : List (List Nat))
    (h : s.certs = some c) : (s.stepOp o).certs = some c := by
  cases o with
  | read => exact advance_certs_mono s c h
  | write => exact advance_certs_mono s c h
  | flush => exact h
  | shutdown => exact h

theorem stepOp_cellEmpty (s : TlsStreamM) (o : OpKind)
    (h : s.handshakingCellEmpty = true) :
    (s.stepOp o).handshakingCellEmpty = true := by
  cases o with
  | read => exact advance_cellEmpty s h
  | write => exact advance_cellEmpty s h
  | flush => exact h
  | shutdown => exact h

theorem stepOp_failed (s : TlsStreamM) (o : OpKind) (a : AcceptM) (e : IOErr)
    (h1 : s.state = .handshaking a) (h2 : a.outcome = .error e) :
    (∃ a', (s.stepOp o).state = .handshaking a' ∧ a'.outcome = .error e)
      ∧ (s.stepOp o).certs = s.certs := by
  cases o with
  | read => exact advance_failed s a e h1 h2
  | write => exact advance_failed s a e h1 h2
  | flush => exact ⟨⟨a, h1, h2⟩, rfl⟩
  | shutdown => exact ⟨⟨a, h1, h2⟩, rfl⟩

theorem runOps_remote (s : TlsStreamM) (ops : List OpKind) :
    (s.runOps ops).remote = s.remote := by
  induction ops generalizing s with
  | nil => rfl
  | cons o ops ih =>
    show ((s.stepOp o).runOps ops).remote = s.remote
    rw [ih, stepOp_remote]

theorem runOps_of_streaming (s : TlsStreamM) (stream : StreamM)
    (ops : List OpKind) (h : s.state = .streaming stream) :
    s.runOps ops = s := by
  induction ops generalizing s with
  | nil => rfl
  | cons o ops ih =>
    show (s.stepOp o).runOps ops = s
    rw [stepOp_of_streaming s stream o h]
    exact ih s h

theorem runOps_handshaking_src (s : TlsStreamM) (ops : List OpKind)
    (a' : AcceptM) (h : (s.runOps ops).state = .handshaking a') :
    ∃ a, s.state = .handshaking a ∧ a'.raw = a.raw ∧ a'.outcome = a.outcome := by
  induction ops generalizing s with
  | nil => exact ⟨a', h, rfl, rfl⟩
  | cons o ops ih =>
    obtain ⟨a1, h1, h2, h3⟩ := ih (s.stepOp o) h
    obtain ⟨a0, g1, g2, g3⟩ := stepOp_handshaking_src s o a1 h1
    exact ⟨a0, g1, by rw [h2, g2], by rw [h3, g3]⟩

theorem runOps_certs_mono (s : TlsStreamM) (ops : List OpKind)
    (c : List (List Nat)) (h : s.certs = some c) :
    (s.runOps ops).certs = some c := by
  induction ops generalizing s with
  | nil => exact h
  | cons o ops ih => exact ih (s.stepOp o) (stepOp_certs_mono s o c h)

theorem runOps_cellEmpty (s : TlsStreamM) (ops : List OpKind)
    (h : s.handshakingCellEmpty = true) :
    (s.runOps ops).handshakingCellEmpty = true := by
  induction ops generalizing s with
  | nil => exact h
  | cons o ops ih => exact ih (s.stepOp o) (stepOp_cellEmpty s o h)

theorem runOps_failed (s : TlsStreamM) (ops : List OpKind) (a : AcceptM)
    (e : IOErr) (h1 : s.state = .handshaking a) (h2 : a.outcome = .error e)
    (h3 : s.certs = none) :
    (∃ a', (s.runOps ops).state = .handshaking a' ∧ a'.outcome = .error e)
      ∧ (s.runOps ops).certs = none := by
  induction ops generalizing s a with
  | nil => exact ⟨⟨a, h1, h2⟩, h3⟩
  | cons o ops ih =>
    obtain ⟨⟨a1, g1, g2⟩, g3⟩ := stepOp_failed s o a e h1 h2
    exact ih (s.stepOp o) a1 g1 g2 (g3.trans h3)

/-- A stream whose cell invariant holds and that is still handshaking has an
empty cell. -/
theorem handshakingCellEmpty_spec (t : TlsStreamM) (a : AcceptM)
    (h : t.handshakingCellEmpty = true) (hs : t.state = .handshaking a) :
    t.certs = none := by
  rcases t with ⟨r, st, cc⟩
  cases hs
  simpa [TlsStreamM.handshakingCellEmpty, decide_eq_true_eq] using h

/-- Any operation issued while the handshake has already failed returns the
handshake error, logs the peer and cause, and leaves the record unchanged —
the failure branch of `poll_accept_then` never consults the requested
operation `f`. -/
theorem poll_accept_then_failed {T : Type} (s : TlsStreamM) (a : AcceptM)
    (e : IOErr) (f : StreamM → Poll (Except IOErr T))
    (hst : s.state = .handshaking a) (hp : a.pendingPolls = 0)
    (hoc : a.outcome = .error e) :
    s.poll_accept_then f = (s, Poll.ready (.error e), [⟨s.remote, e.msg⟩]) := by
  rcases s with ⟨r, st, cc⟩
  cases hst
  rcases a with ⟨raw, n, oc⟩
  change n = 0 at hp
  subst hp
  change oc = .error e at hoc
  subst hoc
  rfl

/-- A read issued while the handshake has already failed returns the
handshake error, logs the peer and cause, and leaves the record unchanged. -/
theorem poll_read_failed (s : TlsStreamM) (a : AcceptM) (e : IOErr)
    (hst : s.state = .handshaking a) (hp : a.pendingPolls = 0)
    (hoc : a.outcome = .error e) :
    s.poll_read = (s, Poll.ready (.error e), [⟨s.remote, e.msg⟩]) :=
  poll_accept_then_failed s a e _ hst hp hoc

/-- A write issued while the handshake has already failed returns the
handshake error, logs the peer and cause, and leaves the record unchanged. -/
theorem poll_write_failed (s : TlsStreamM) (a : AcceptM) (e : IOErr)
    (buf : List Nat) (hst : s.state = .handshaking a)
    (hp : a.pendingPolls = 0) (hoc : a.outcome = .error e) :
    s.poll_write buf = (s, Poll.ready (.error e), [⟨s.remote, e.msg⟩]) :=
  poll_accept_then_failed s a e _ hst hp hoc

/-- A successful `bind` used exactly the client-auth policy computed from
the config. -/
theorem bind_ok_clientAuth (env : BindEnv) (c : ConfigM) (tc : TlsEngineConfig)
    (h : TlsListener.bind env c = .ok tc) :
    client_auth_policy env.loaders c = .ok tc.clientAuth := by
  unfold TlsListener.bind at h
  cases hca : client_auth_policy env.loaders c with
  | error e => rw [hca] at h; simp at h
  | ok ca =>
    rw [hca] at h
    cases hr : Resolver.new env.loaders c with
    | panicked m => rw [hr] at h; simp at h
    | err e => rw [hr] at h; simp at h
    | ok rs =>
      rw [hr] at h
      cases hs : env.signal_register with
      | error e => rw [hs] at h; simp at h
      | ok u =>
        rw [hs] at h
        cases hb : env.builder_check c.ciphersuites with
        | error e => rw [hb] at h; simp at h
        | ok v =>
          rw [hb] at h
          cases ht : env.new_ticketer with
          | error e => rw [ht] at h; simp at h
          | ok tick =>
            rw [ht] at h
            cases ht2 : env.tcp_bind with
            | error e => rw [ht2] at h; simp at h
            | ok w =>
              rw [ht2] at h
              cases h
              rfl

/-! Claim theorems. -/

/-- Claim C1 (code bug): the Hot-Reload Task is claimed not to crash on a
malformed reload and to retain the previous active state. The reload body
`.unwrap()`s the loader error (listener.rs lines 145-151), so on a malformed
private-key source the task panics — it crashes instead of logging and
continuing — while the active state is left untouched only because the panic
occurs before the replacement at line 153. Evaluated at the failing input. -/
theorem C1_reload_task_panics_on_malformed_key :
    Resolver.background_updater_step badKeyLoaders cfg0
        = .panicked "bad TLS private key: no key found"
      ∧ activeAfterReload badKeyLoaders cfg0 prevState = prevState :=
  ⟨rfl, rfl⟩

/-- Claim C2 (counterexample to the claim as stated): for a config whose
cert-chain source is malformed, `TlsListener::bind` does not return the
descriptive I/O error to its caller — `Resolver::new` unwraps it, so bind
aborts by panicking with that message instead. -/
theorem C2_counterexample :
    TlsListener.bind env0 cfg0
        = .panicked "bad TLS cert chain: malformed chain"
      ∧ (TlsListener.bind env0 cfg0).isErrReturn = false :=
  ⟨rfl, rfl⟩

/-- Claim C2 (amended): for every config whose client-auth step succeeds,
a malformed cert-chain source aborts listener construction with a panic
whose message is "bad TLS cert chain: …", and a well-formed chain with a
malformed private-key source aborts with a panic "bad TLS private key: …";
the descriptive message wraps the underlying parse error but is not
returned as an I/O error to bind's caller. -/
theorem C2_bind_aborts_by_panic (env : BindEnv) (c : ConfigM)
    (ca : ClientAuth) (hca : client_auth_policy env.loaders c = .ok ca) :
    (∀ e : IOErr, env.loaders.load_certs c.cert_chain = .error e →
        TlsListener.bind env c = .panicked ("bad TLS cert chain: " ++ e.msg))
  ∧ (∀ (cc : List (List Nat)) (e : IOErr),
        env.loaders.load_certs c.cert_chain = .ok cc →
        env.loaders.load_private_key c.private_key = .error e →
        TlsListener.bind env c
          = .panicked ("bad TLS private key: " ++ e.msg)) := by
  constructor
  · intro e he
    simp [TlsListener.bind, hca, Resolver.new, he]
  · intro cc e hcc he
    simp [TlsListener.bind, hca, Resolver.new, hcc, he]

/-- Witness for the amended C2 at a concrete malformed cert-chain source. -/
theorem C2_bind_aborts_by_panic_witness :
    client_auth_policy env0.loaders cfg0 = .ok .noClientAuth
  ∧ TlsListener.bind env0 cfg0
      = .panicked "bad TLS cert chain: malformed chain" :=
  ⟨rfl, (C2_bind_aborts_by_panic env0 cfg0 .noClientAuth rfl).1
      ⟨2, "malformed chain"⟩ rfl⟩

/-- Claim C3: on every raw TCP connection handed up by the TCP accept,
`poll_accept` is immediately `Ready` with a connection in the `Handshaking`
state holding the untouched, never-polled accept future `acceptor io`, an
empty certificate cell, and the peer address — it never suspends on the
handshake. -/
theorem C3_poll_accept_immediate (acceptor : Nat → AcceptM) (io addr : Nat) :
    TlsListener.poll_accept acceptor (Poll.ready (.ok (io, addr)))
      = Poll.ready (.ok ⟨addr, .handshaking (acceptor io), none⟩) := rfl

/-- Claim C4: a read or write on a handshaking connection whose handshake
completes successfully at this poll fills the certificate cell with a copy
of the peer-certificate output exactly when that output is present,
transitions the state to `Streaming`, and runs the originally requested
operation `f` against the stream within the same call. -/
theorem C4_handshake_success_same_call {T : Type} (s : TlsStreamM)
    (a : AcceptM) (stream : StreamM) (f : StreamM → Poll (Except IOErr T))
    (hst : s.state = .handshaking a) (hp : a.pendingPolls = 0)
    (hoc : a.outcome = .ok stream) (hcell : s.certs = none) :
    (s.poll_accept_then f).1.state = .streaming stream
  ∧ (s.poll_accept_then f).1.certs = stream.peer_certificates
  ∧ (s.poll_accept_then f).2.1 = f stream
  ∧ (s.poll_accept_then f).1.remote = s.remote := by
  rcases s with ⟨r, st, cc⟩
  cases hst
  cases hcell
  rcases a with ⟨raw, n, oc⟩
  change n = 0 at hp
  subst hp
  change oc = .ok stream at hoc
  subst hoc
  cases hpc : stream.peer_certificates with
  | none =>
    exact ⟨rfl, by simp [TlsStreamM.poll_accept_then, hpc], rfl, rfl⟩
  | some v =>
    exact ⟨rfl, by simp [TlsStreamM.poll_accept_then, hpc, cellSet], rfl, rfl⟩

/-- Witness for C4: a concrete successful handshake via `poll_read`. -/
theorem C4_handshake_success_same_call_witness :
    (s0.poll_read).1.state = .streaming stream0
  ∧ (s0.poll_read).1.certs = some [[5]]
  ∧ (s0.poll_read).2.1 = Poll.ready (.ok [9]) :=
  ⟨(C4_handshake_success_same_call s0 a0 stream0
      (fun stream => Poll.ready (.ok stream.readData)) rfl rfl rfl rfl).1,
   (C4_handshake_success_same_call s0 a0 stream0
      (fun stream => Poll.ready (.ok stream.readData)) rfl rfl rfl rfl).2.1,
   (C4_handshake_success_same_call s0 a0 stream0
      (fun stream => Poll.ready (.ok stream.readData)) rfl rfl rfl rfl).2.2.1⟩

/-- Claim C5: over any sequence of calls, the state makes at most one
transition, `Handshaking` to `Streaming` and never backward (a streaming
connection is left exactly as it is); while still handshaking, the pending
accept future is the one created at accept time (same socket, same
outcome — no second handshake is started); read and write have the same
record effect `advance`, i.e. they drive the one handshake; and the remote
address is fixed at creation. -/
theorem C5_single_transition (s : TlsStreamM) (ops : List OpKind)
    (buf : List Nat) :
    (s.runOps ops).remote = s.remote
  ∧ (∀ stream, s.state = .streaming stream → s.runOps ops = s)
  ∧ (∀ a a', s.state = .handshaking a →
        (s.runOps ops).state = .handshaking a' →
        a'.raw = a.raw ∧ a'.outcome = a.outcome)
  ∧ (s.poll_read).1 = s.advance
  ∧ (s.poll_write buf).1 = s.advance := by
  refine ⟨runOps_remote s ops, ?_, ?_,
    poll_accept_then_fst s _, poll_accept_then_fst s _⟩
  · intro stream h
    exact runOps_of_streaming s stream ops h
  · intro a a' h1 h2
    obtain ⟨a1, g1, g2, g3⟩ := runOps_handshaking_src s ops a' h2
    rw [h1] at g1
    cases g1
    exact ⟨g2, g3⟩

/-- Witness for C5 at concrete streams and a concrete call sequence. -/
theorem C5_single_transition_witness :
    (sStream.runOps ops0).remote = 7
  ∧ sStream.runOps ops0 = sStream
  ∧ (s0.poll_read).1 = s0.advance :=
  ⟨(C5_single_transition sStream ops0 []).1,
   (C5_single_transition sStream ops0 []).2.1 stream0 rfl,
   (C5_single_transition s0 ops0 []).2.2.2.1⟩

/-- Claim C6: the certificate cell is monotone and write-once along any
call sequence: a connection created with the empty-while-handshaking
invariant keeps it, so every observation before handshake completion is
empty; once the cell holds a value it holds that same value forever (never
cleared, never overwritten — `cellSet` on a filled cell is a no-op); an
empty cell is filled by `cellSet` with exactly the presented chain. -/
theorem C6_cell_monotone (s : TlsStreamM) (ops : List OpKind) :
    (s.handshakingCellEmpty = true →
        (s.runOps ops).handshakingCellEmpty = true)
  ∧ (∀ a, s.handshakingCellEmpty = true →
        (s.runOps ops).state = .handshaking a → (s.runOps ops).certs = none)
  ∧ (∀ c, s.certs = some c → (s.runOps ops).certs = some c)
  ∧ (∀ c v, cellSet (some c) v = some c)
  ∧ (∀ v, cellSet none v = some v) := by
  refine ⟨fun h => runOps_cellEmpty s ops h, ?_,
    fun c h => runOps_certs_mono s ops c h, fun c v => rfl, fun v => rfl⟩
  intro a h hs
  exact handshakingCellEmpty_spec (s.runOps ops) a (runOps_cellEmpty s ops h) hs

/-- Witness for C6 at a concrete fresh connection and a filled one. -/
theorem C6_cell_monotone_witness :
    (s0.runOps ops0).handshakingCellEmpty = true
  ∧ (sStream.runOps ops0).certs = some [[5]] :=
  ⟨(C6_cell_monotone s0 ops0).1 rfl,
   (C6_cell_monotone sStream ops0).2.2.1 [[5]] rfl⟩

/-- Claim C7: every read or write whose in-progress handshake fails returns
that I/O error from the call, emits exactly one diagnostic carrying the peer
address and the failure cause, and is confined to that connection: the
listener record and every other connection of the system are unchanged, and
even the failing connection's record is left as it was — stated for a
failing read and for a failing write of any buffer. -/
theorem C7_handshake_failure_isolated (sys : SystemM) (i : Nat)
    (a : AcceptM) (e : IOErr) (buf : List Nat)
    (hst : (sys.conns i).state = .handshaking a)
    (hp : a.pendingPolls = 0) (hoc : a.outcome = .error e) :
    (sys.pollReadConn i).2.1 = Poll.ready (.error e)
  ∧ (sys.pollReadConn i).2.2 = [⟨(sys.conns i).remote, e.msg⟩]
  ∧ (sys.pollReadConn i).1.listener_local_addr = sys.listener_local_addr
  ∧ (∀ j, j ≠ i → (sys.pollReadConn i).1.conns j = sys.conns j)
  ∧ (sys.pollReadConn i).1.conns i = sys.conns i
  ∧ (sys.pollWriteConn i buf).2.1 = Poll.ready (.error e)
  ∧ (sys.pollWriteConn i buf).2.2 = [⟨(sys.conns i).remote, e.msg⟩]
  ∧ (sys.pollWriteConn i buf).1.listener_local_addr
      = sys.listener_local_addr
  ∧ (∀ j, j ≠ i → (sys.pollWriteConn i buf).1.conns j = sys.conns j)
  ∧ (sys.pollWriteConn i buf).1.conns i = sys.conns i := by
  have hr := poll_read_failed (sys.conns i) a e hst hp hoc
  have hw := poll_write_failed (sys.conns i) a e buf hst hp hoc
  refine ⟨?_, ?_, rfl, ?_, ?_, ?_, ?_, rfl, ?_, ?_⟩
  · simp [SystemM.pollReadConn, hr]
  · simp [SystemM.pollReadConn, hr]
  · intro j hj
    simp [SystemM.pollReadConn, hj]
  · simp [SystemM.pollReadConn, hr]
  · simp [SystemM.pollWriteConn, hw]
  · simp [SystemM.pollWriteConn, hw]
  · intro j hj
    simp [SystemM.pollWriteConn, hj]
  · simp [SystemM.pollWriteConn, hw]

/-- Witness for C7: the concrete system `sys0` whose connection 0 has a
failing handshake, exercised with both a read and a write. -/
theorem C7_handshake_failure_isolated_witness :
    (sys0.pollReadConn 0).2.1 = Poll.ready (.error ⟨4, "handshake broke"⟩)
  ∧ (sys0.pollReadConn 0).2.2 = [⟨7, "handshake broke"⟩]
  ∧ (sys0.pollReadConn 0).1.conns 1 = s0
  ∧ (sys0.pollWriteConn 0 [1, 2]).2.1
      = Poll.ready (.error ⟨4, "handshake broke"⟩)
  ∧ (sys0.pollWriteConn 0 [1, 2]).2.2 = [⟨7, "handshake broke"⟩]
  ∧ (sys0.pollWriteConn 0 [1, 2]).1.conns 1 = s0 :=
  ⟨(C7_handshake_failure_isolated sys0 0 aFail
      ⟨4, "handshake broke"⟩ [1, 2] rfl rfl rfl).1,
   (C7_handshake_failure_isolated sys0 0 aFail
      ⟨4, "handshake broke"⟩ [1, 2] rfl rfl rfl).2.1,
   (C7_handshake_failure_isolated sys0 0 aFail
      ⟨4, "handshake broke"⟩ [1, 2] rfl rfl rfl).2.2.2.1 1 (by decide),
   (C7_handshake_failure_isolated sys0 0 aFail
      ⟨4, "handshake broke"⟩ [1, 2] rfl rfl rfl).2.2.2.2.2.1,
   (C7_handshake_failure_isolated sys0 0 aFail
      ⟨4, "handshake broke"⟩ [1, 2] rfl rfl rfl).2.2.2.2.2.2.1,
   (C7_handshake_failure_isolated sys0 0 aFail
      ⟨4, "handshake broke"⟩ [1, 2] rfl rfl rfl).2.2.2.2.2.2.2.2.1
     1 (by decide)⟩

/-- Claim C8: `bind` builds the client-auth policy as a total function of
the config: no CA source gives no client auth; a CA source with the
mandatory flag gives require-and-verify; without the flag gives
authenticated-or-anonymous; a malformed CA source makes `bind` return the
"bad CA cert(s): …" I/O error; and whenever `bind` succeeds, the engine
config carries exactly the policy computed from the config. -/
theorem C8_client_auth_total (env : BindEnv) (c : ConfigM) :
    (c.ca_certs = none →
        client_auth_policy env.loaders c = .ok .noClientAuth)
  ∧ (∀ src ca, c.ca_certs = some src →
        env.loaders.load_ca_certs src = .ok ca → c.mandatory_mtls = true →
        client_auth_policy env.loaders c
          = .ok (.allowAnyAuthenticatedClient ca))
  ∧ (∀ src ca, c.ca_certs = some src →
        env.loaders.load_ca_certs src = .ok ca → c.mandatory_mtls = false →
        client_auth_policy env.loaders c
          = .ok (.allowAnyAnonymousOrAuthenticatedClient ca))
  ∧ (∀ src e, c.ca_certs = some src →
        env.loaders.load_ca_certs src = .error e →
        TlsListener.bind env c = .err ⟨e.kind, "bad CA cert(s): " ++ e.msg⟩)
  ∧ (∀ tc, TlsListener.bind env c = .ok tc →
        client_auth_policy env.loaders c = .ok tc.clientAuth) := by
  refine ⟨?_, ?_, ?_, ?_, fun tc h => bind_ok_clientAuth env c tc h⟩
  · intro h
    simp [client_auth_policy, h]
  · intro src ca h1 h2 h3
    simp [client_auth_policy, h1, h2, h3]
  · intro src ca h1 h2 h3
    simp [client_auth_policy, h1, h2, h3]
  · intro src e h1 h2
    simp [TlsListener.bind, client_auth_policy, h1, h2]

/-- Witness for C8: no CA source and a concrete malformed CA source. -/
theorem C8_client_auth_total_witness :
    client_auth_policy env0.loaders cfg0 = .ok .noClientAuth
  ∧ TlsListener.bind envCA cfgCA = .err ⟨6, "bad CA cert(s): not a cert"⟩ :=
  ⟨(C8_client_auth_total env0 cfg0).1 rfl,
   (C8_client_auth_total envCA cfgCA).2.2.2.1 [12] ⟨6, "not a cert"⟩ rfl rfl⟩

/-- Claim C9: for every hello, `Resolver::resolve` answers with `Some`
certified key built from the chain and key of the active state at call
time (the chain is copied out of the locked snapshot, so a later wholesale
replacement cannot alter a key already handed out); the `None` branch is
never returned; and when `any_supported_type` rejects the stored key the
`.unwrap()` panics instead of returning `None`. -/
theorem C9_resolve_never_none (any : List Nat → Option Nat)
    (active : ResolverConfig) :
    (∀ sk, any active.private_key = some sk →
        Resolver.resolve any active = .ok (some ⟨active.cert_chain, sk⟩))
  ∧ Resolver.resolve any active ≠ .ok none
  ∧ (any active.private_key = none →
        Resolver.resolve any active
          = .panicked "any_supported_type failed: unwrap on Err") := by
  refine ⟨?_, ?_, ?_⟩
  · intro sk h
    simp [Resolver.resolve, h]
  · intro h
    cases hk : any active.private_key with
    | none => simp [Resolver.resolve, hk] at h
    | some sk => simp [Resolver.resolve, hk] at h
  · intro h
    simp [Resolver.resolve, h]

/-- Witness for C9 at the concrete active state `prevState`. -/
theorem C9_resolve_never_none_witness :
    any0 prevState.private_key = some 42
  ∧ Resolver.resolve any0 prevState = .ok (some ⟨[[9]], 42⟩) :=
  ⟨rfl, (C9_resolve_never_none any0 prevState).1 42 rfl⟩

/-- Claim C10: once a connection's handshake has failed, its observable
state is frozen apart from the returned errors: along any further call
sequence it stays `Handshaking` with the same failed outcome, never
transitions to `Streaming`, and its certificate cell stays empty. -/
theorem C10_failed_handshake_stable (s : TlsStreamM) (a : AcceptM)
    (e : IOErr) (hst : s.state = .handshaking a)
    (hoc : a.outcome = .error e) (hcell : s.certs = none) :
    ∀ ops : List OpKind,
      (∃ a', (s.runOps ops).state = .handshaking a'
          ∧ a'.outcome = .error e)
    ∧ (s.runOps ops).certs = none
    ∧ ∀ stream, (s.runOps ops).state ≠ .streaming stream := by
  intro ops
  obtain ⟨⟨a', h1, h2⟩, h3⟩ := runOps_failed s ops a e hst hoc hcell
  refine ⟨⟨a', h1, h2⟩, h3, ?_⟩
  intro stream hcontra
  rw [h1] at hcontra
  cases hcontra

/-- Witness for C10: the concrete failed connection `sFail`. -/
theorem C10_failed_handshake_stable_witness :
    sFail.certs = none ∧ (sFail.runOps ops0).certs = none :=
  ⟨rfl, (C10_failed_handshake_stable sFail aFail ⟨4, "handshake broke"⟩
      rfl rfl rfl ops0).2.1⟩

end TlsCore
